import Mathlib

/-!
# BreathEasy SG — scoring engine, shallow embedding

Verification development for the scoring engine (`scoring.ts`, v3
"exhaust-volume model") of the BreathEasy SG repository.  JavaScript
numbers are modelled as exact rationals (`ℚ`).  The two transcendental
library calls, `Math.sqrt` and `Math.cos((lat * PI) / 180)`, cannot be
computed in `ℚ`; they are threaded through the embedding as parameters:

* `sqrt : ℚ → ℚ` stands for `Math.sqrt`; theorems assume of it only
  properties that the real square root enjoys (stated per theorem, e.g.
  `SqrtLB`), and concrete evaluations instantiate it with a function
  satisfying those properties.
* `cosLat : ℚ` stands for the value `Math.cos((lat * PI) / 180)`
  computed by the source; theorems assume at most `1/2 ≤ cosLat`,
  which holds for every latitude below 60°, in particular for all of
  Singapore (`cos 1.3° ≈ 0.9997`).

Option types model `null`/`undefined` inputs, and JavaScript's
`Infinity` initialiser for running minima is modelled by `Option ℚ`
(`none` = no candidate yet).  `Math.round` is round-half-up:
`Math.round x = ⌊x + 1/2⌋`.
-/
/- Batteries marks the `Rat` arithmetic operations `@[irreducible]`;
make them semireducible in this file so that concrete instances of the
model can be evaluated by `decide`. -/
unseal Rat.add Rat.sub Rat.mul Rat.inv Rat.ofScientific

/-! ## Data model (types/index.ts) -/
structure GridCell where
  lat : ℚ
  lng : ℚ
  base : ℚ
deriving DecidableEq

/-- The static grid; the `resolution_m`/`bounds` metadata fields are not read
by the scoring engine and are omitted. -/
structure StaticGrid where
  cells : List GridCell
deriving DecidableEq

/-- Current conditions, flattened to the four fields the engine reads:
`pm25.value`, `wind.speed`, `rainfall.isRaining`, `rainfall.intensity`. -/
structure CurrentConditions where
  pm25Value : ℚ
  windSpeed : ℚ
  isRaining : Bool
  rainIntensity : String
deriving DecidableEq

/-- A single road (sub-)segment.  `linkId` is never read and is omitted.
The source field `congestionRatio` is called `congestion` here.
Missing numeric fields (`frc?`, `congestionRatio?`) are `Option`;
`roadName` is a character list (a missing name is `[]`, which is falsy
in JavaScript exactly like the empty string). -/
structure TrafficSpeedBand where
  roadName : List Char
  speedBand : ℚ
  startLat : ℚ
  startLng : ℚ
  endLat : ℚ
  endLng : ℚ
  frc : Option ℚ
  congestion : Option ℚ
deriving DecidableEq

structure ScoredPoint where
  lat : ℚ
  lng : ℚ
  distanceM : ℚ
  score : ℚ
  color : String
  band : String
  trafficMod : Option ℚ
  industrialZone : Bool
  greenZone : Bool
  nearGreenZone : Bool
deriving DecidableEq

structure RatingFactor where
  label : String
  pct : ℚ
  detail : String
deriving DecidableEq

structure RouteRating where
  overall : ℚ
  trafficExposure : ℚ
  airQuality : ℚ
  greenCorridor : ℚ
  consistency : ℚ
  summary : String
  factors : List RatingFactor
deriving DecidableEq

/-! ## Rounding -/
/-- JavaScript `Math.round` (round half towards positive infinity). -/
def jsRound (x : ℚ) : ℚ := ((Int.floor (x + 1/2) : ℤ) : ℚ)

/-- The idiom `Math.round(x * 10) / 10` — round to one decimal. -/
def round10 (x : ℚ) : ℚ := jsRound (x * 10) / 10

/-! ## Score bands -/
structure BandInfo where
  max : ℚ
  band : String
  label : String
  color : String
deriving DecidableEq

def BANDS : List BandInfo :=
  [ ⟨2, "excellent", "Excellent", "#4ecdc4"⟩,
    ⟨3.5, "good", "Good", "#a8e6a3"⟩,
    ⟨5, "moderate", "Fair", "#f7d794"⟩,
    ⟨7, "poor", "Poor", "#f8a978"⟩,
    ⟨10, "hazardous", "Avoid", "#fc5c65"⟩ ]

def getBand (score : ℚ) : BandInfo :=
  (BANDS.find? fun b => decide (score ≤ b.max)).getD
    (BANDS.getLastD ⟨10, "hazardous", "Avoid", "#fc5c65"⟩)

/-! ## Weather & time modifiers -/
def pm25Modifier (pm25 : ℚ) : ℚ :=
  if pm25 ≤ 12 then 0
  else if pm25 ≤ 25 then 0.5
  else if pm25 ≤ 37 then 1.0
  else if pm25 ≤ 55 then 2.0
  else if pm25 ≤ 75 then 3.0
  else 4.0

def windModifier (speedKmh : ℚ) : ℚ :=
  if 20 ≤ speedKmh then -1.0
  else if 12 ≤ speedKmh then -0.5
  else if 6 ≤ speedKmh then 0
  else if 2 ≤ speedKmh then 0.3
  else 0.5

def timeModifier (hour : ℚ) : ℚ :=
  if 7 ≤ hour ∧ hour ≤ 9 then 1.5
  else if 17 ≤ hour ∧ hour ≤ 19 then 1.5
  else if 6 ≤ hour ∧ hour ≤ 10 then 0.8
  else if 16 ≤ hour ∧ hour ≤ 20 then 0.8
  else if 0 ≤ hour ∧ hour ≤ 5 then -0.5
  else 0.3

def rainModifier (isRaining : Bool) (intensity : String) : ℚ :=
  if !isRaining then 0
  else if intensity = "Heavy" then -2.0
  else if intensity = "Moderate" then -1.5
  else if intensity = "Light" then -1.0
  else -0.5

/-! ## Traffic / exhaust model -/
def DEG_TO_M : ℚ := 111320

def TRAFFIC_RADIUS : ℚ := 400

def EXPRESSWAYS : List String :=
  ["AYE", "PIE", "CTE", "ECP", "KPE", "SLE", "TPE", "BKE", "MCE", "KJE"]

/-- ASCII `toUpperCase`; all road-name matching in the source is over
ASCII expressway codes. -/
def asciiUpper (ch : Char) : Char :=
  if 'a' ≤ ch ∧ ch ≤ 'z' then Char.ofNat (ch.toNat - 32) else ch

/-- JavaScript `hay.includes(needle)`: contiguous-substring test. -/
def jsIncludes : List Char → List Char → Bool
  | [], needle => List.isPrefixOf needle []
  | h :: t, needle => List.isPrefixOf needle (h :: t) || jsIncludes t needle

def inferFrcFromRoadName (name : List Char) : ℚ :=
  if name = [] then 3
  else
    let upper := name.map asciiUpper
    if EXPRESSWAYS.any fun e => jsIncludes upper e.toList then 0
    else if jsIncludes upper "EXPRESSWAY".toList || jsIncludes upper "HIGHWAY".toList then 0
    else 2

def roadVolumeBaseline (frc : ℚ) : ℚ :=
  if frc ≤ 1 then 1.0
  else if frc ≤ 2 then 0.7
  else if frc ≤ 3 then 0.5
  else if frc ≤ 4 then 0.25
  else if frc ≤ 5 then 0.12
  else 0.05

def congestionEmissionMultiplier (congestionRatio' : ℚ) : ℚ :=
  if congestionRatio' < 0.25 then 3.0
  else if congestionRatio' < 0.4 then 2.5
  else if congestionRatio' < 0.6 then 1.8
  else if congestionRatio' < 0.8 then 1.3
  else if congestionRatio' < 0.95 then 1.1
  else 1.0

/-- Source `pointToSegmentDist(px, py, ax, ay, bx, by, cosLat)` with `Math.sqrt`
as the parameter `sqrt`. -/
def pointToSegmentDist (sqrt : ℚ → ℚ)
    (px py ax ay bx by' cosLat : ℚ) : ℚ :=
  let dx := (bx - ax) * DEG_TO_M * cosLat
  let dy := (by' - ay) * DEG_TO_M
  let lenSq := dx * dx + dy * dy
  let ex := (px - ax) * DEG_TO_M * cosLat
  let ey := (py - ay) * DEG_TO_M
  if lenSq = 0 then sqrt (ex * ex + ey * ey)
  else
    let t := max 0 (min 1 ((ex * dx + ey * dy) / lenSq))
    let projX := ex - t * dx
    let projY := ey - t * dy
    sqrt (projX * projX + projY * projY)

/-- Distance of the point to the segment of one traffic band. -/
def bandDist (sqrt : ℚ → ℚ) (cosLat lat lng : ℚ) (band : TrafficSpeedBand) : ℚ :=
  pointToSegmentDist sqrt lat lng band.startLat band.startLng band.endLat band.endLng cosLat

/-- The congestion ratio used for a band: the provided `congestionRatio`
if present, otherwise inferred from `speedBand`. -/
def bandCongestion (frc : ℚ) (band : TrafficSpeedBand) : ℚ :=
  match band.congestion with
  | some r => r
  | none =>
    if frc ≤ 1 then min 1 (band.speedBand / 8)
    else if band.speedBand ≤ 2 then 0.4
    else if band.speedBand ≤ 4 then 0.7
    else 0.95

/-- The resolved functional road class of a band. -/
def bandFrc (band : TrafficSpeedBand) : ℚ :=
  band.frc.getD (inferFrcFromRoadName band.roadName)

/-- The product `volume * emission * distanceFactor` for one band (meaningful when
the band is valid and within the radius). -/
def bandExhaust (sqrt : ℚ → ℚ) (cosLat lat lng : ℚ) (band : TrafficSpeedBand) : ℚ :=
  let dist := bandDist sqrt cosLat lat lng band
  let distanceFactor := 1 - dist / TRAFFIC_RADIUS
  let frc := bandFrc band
  roadVolumeBaseline frc * congestionEmissionMultiplier (bandCongestion frc band) * distanceFactor

/-- One iteration of the `worstExhaust` loop of `trafficModifier`:
skip bands with falsy (zero) start coordinates, skip bands at distance
`≥ TRAFFIC_RADIUS`, otherwise keep the larger exhaust. -/
def trafficStep (sqrt : ℚ → ℚ) (cosLat lat lng : ℚ)
    (worstExhaust : ℚ) (band : TrafficSpeedBand) : ℚ :=
  if band.startLat = 0 ∨ band.startLng = 0 then worstExhaust
  else if TRAFFIC_RADIUS ≤ bandDist sqrt cosLat lat lng band then worstExhaust
  else if worstExhaust < bandExhaust sqrt cosLat lat lng band
       then bandExhaust sqrt cosLat lat lng band
       else worstExhaust

def trafficModifier (sqrt : ℚ → ℚ) (cosLat lat lng : ℚ)
    (speedBands : List TrafficSpeedBand) : ℚ :=
  if speedBands.isEmpty then 0
  else
    let worstExhaust := speedBands.foldl (trafficStep sqrt cosLat lat lng) 0
    let penalty := min 4.0 (worstExhaust * 3.5)
    jsRound (penalty * 10) / 10

/-! ## Polygon zones -/
structure Zone where
  name : String
  ring : List (ℚ × ℚ)
deriving DecidableEq

def GREEN_BUFFER_M : ℚ := 150

/-- Green zones; the rings are stored exactly as in the source, as
`[lat, lng]` pairs. -/
def GREEN_ZONES : List Zone :=
  [ ⟨"East Coast Park",
     [(1.296, 103.868), (1.293, 103.880), (1.293, 103.900), (1.295, 103.920),
      (1.297, 103.940), (1.299, 103.950), (1.302, 103.955), (1.305, 103.950),
      (1.304, 103.940), (1.303, 103.920), (1.301, 103.900), (1.300, 103.880),
      (1.300, 103.868)]⟩,
    ⟨"Gardens by the Bay",
     [(1.278, 103.861), (1.278, 103.870), (1.284, 103.870), (1.284, 103.861)]⟩,
    ⟨"Marina Bay Promenade",
     [(1.284, 103.852), (1.284, 103.861), (1.290, 103.861), (1.290, 103.852)]⟩,
    ⟨"Botanic Gardens",
     [(1.310, 103.813), (1.310, 103.820), (1.322, 103.820), (1.322, 103.813)]⟩,
    ⟨"MacRitchie Reservoir",
     [(1.335, 103.820), (1.335, 103.840), (1.348, 103.840), (1.355, 103.835),
      (1.355, 103.825), (1.348, 103.820)]⟩,
    ⟨"Bedok Reservoir Park",
     [(1.336, 103.930), (1.336, 103.940), (1.342, 103.940), (1.342, 103.930)]⟩,
    ⟨"Pandan Reservoir Park",
     [(1.305, 103.735), (1.305, 103.748), (1.315, 103.748), (1.315, 103.735)]⟩,
    ⟨"Jurong Lake Gardens",
     [(1.330, 103.720), (1.330, 103.740), (1.340, 103.740), (1.345, 103.735),
      (1.345, 103.725), (1.340, 103.720)]⟩,
    ⟨"West Coast Park",
     [(1.280, 103.758), (1.280, 103.770), (1.287, 103.770), (1.287, 103.758)]⟩,
    ⟨"Pasir Ris Park",
     [(1.373, 103.942), (1.373, 103.960), (1.382, 103.960), (1.382, 103.942)]⟩,
    ⟨"Bishan-AMK Park",
     [(1.356, 103.843), (1.356, 103.852), (1.365, 103.852), (1.365, 103.843)]⟩,
    ⟨"Fort Canning Park",
     [(1.293, 103.843), (1.293, 103.849), (1.298, 103.849), (1.298, 103.843)]⟩,
    ⟨"Labrador Nature Reserve",
     [(1.264, 103.800), (1.264, 103.808), (1.270, 103.808), (1.270, 103.800)]⟩,
    ⟨"Kent Ridge Park",
     [(1.282, 103.787), (1.282, 103.796), (1.290, 103.796), (1.290, 103.787)]⟩,
    ⟨"Seletar Reservoir",
     [(1.393, 103.815), (1.393, 103.830), (1.402, 103.830), (1.402, 103.815)]⟩,
    ⟨"Punggol Waterway Park",
     [(1.404, 103.898), (1.404, 103.914), (1.412, 103.914), (1.412, 103.898)]⟩,
    ⟨"Coney Island",
     [(1.411, 103.915), (1.411, 103.930), (1.418, 103.930), (1.418, 103.915)]⟩,
    ⟨"Tampines Eco Green",
     [(1.355, 103.952), (1.355, 103.960), (1.362, 103.960), (1.362, 103.952)]⟩,
    ⟨"Southern Ridges",
     [(1.270, 103.800), (1.275, 103.818), (1.280, 103.818), (1.275, 103.800)]⟩,
    ⟨"Bukit Timah Nature Reserve",
     [(1.348, 103.772), (1.348, 103.782), (1.358, 103.782), (1.358, 103.772)]⟩ ]

/-- Industrial zones; rings stored exactly as in the source, as
`[lng, lat]` pairs. -/
def INDUSTRIAL_ZONES : List Zone :=
  [ ⟨"Jurong Industrial Estate",
     [(103.690, 1.308), (103.720, 1.306), (103.730, 1.312), (103.730, 1.335),
      (103.720, 1.340), (103.705, 1.342), (103.690, 1.335)]⟩,
    ⟨"Tuas Industrial",
     [(103.618, 1.305), (103.655, 1.303), (103.660, 1.318), (103.655, 1.338),
      (103.635, 1.342), (103.618, 1.330)]⟩,
    ⟨"Tuas South",
     [(103.610, 1.280), (103.645, 1.278), (103.650, 1.292), (103.640, 1.302),
      (103.615, 1.300)]⟩,
    ⟨"Pioneer / Gul",
     [(103.680, 1.300), (103.700, 1.298), (103.705, 1.310), (103.700, 1.318),
      (103.685, 1.318), (103.678, 1.310)]⟩,
    ⟨"Pandan Loop / Penjuru",
     [(103.725, 1.290), (103.750, 1.288), (103.755, 1.298), (103.752, 1.310),
      (103.740, 1.315), (103.725, 1.310)]⟩,
    ⟨"Jalan Buroh Industrial",
     [(103.720, 1.285), (103.740, 1.283), (103.742, 1.292), (103.735, 1.295),
      (103.720, 1.293)]⟩,
    ⟨"Bukit Batok Industrial",
     [(103.740, 1.340), (103.760, 1.338), (103.765, 1.348), (103.758, 1.355),
      (103.742, 1.352)]⟩,
    ⟨"Woodlands Industrial",
     [(103.768, 1.430), (103.790, 1.428), (103.795, 1.440), (103.788, 1.448),
      (103.770, 1.445)]⟩,
    ⟨"Senoko Industrial",
     [(103.792, 1.443), (103.815, 1.440), (103.820, 1.452), (103.812, 1.458),
      (103.795, 1.455)]⟩,
    ⟨"Kranji Industrial",
     [(103.740, 1.418), (103.758, 1.416), (103.762, 1.425), (103.755, 1.432),
      (103.742, 1.430)]⟩,
    ⟨"Mandai Industrial",
     [(103.760, 1.398), (103.778, 1.396), (103.782, 1.405), (103.775, 1.412),
      (103.762, 1.408)]⟩,
    ⟨"Seletar Aerospace",
     [(103.858, 1.408), (103.878, 1.406), (103.882, 1.416), (103.875, 1.422),
      (103.860, 1.418)]⟩,
    ⟨"Kallang/Kolam Ayer Industrial",
     [(103.865, 1.315), (103.882, 1.313), (103.886, 1.326), (103.878, 1.332),
      (103.866, 1.328)]⟩,
    ⟨"Tai Seng Industrial",
     [(103.880, 1.338), (103.898, 1.336), (103.902, 1.346), (103.895, 1.352),
      (103.882, 1.348)]⟩,
    ⟨"Paya Lebar Industrial",
     [(103.883, 1.338), (103.898, 1.336), (103.902, 1.348), (103.896, 1.354),
      (103.884, 1.350)]⟩,
    ⟨"Defu Industrial",
     [(103.870, 1.358), (103.892, 1.356), (103.896, 1.366), (103.888, 1.372),
      (103.872, 1.368)]⟩,
    ⟨"Ubi / Eunos Industrial",
     [(103.892, 1.318), (103.910, 1.316), (103.914, 1.328), (103.908, 1.334),
      (103.894, 1.330)]⟩,
    ⟨"Changi Business Park",
     [(103.958, 1.328), (103.978, 1.326), (103.982, 1.340), (103.975, 1.345),
      (103.960, 1.342)]⟩,
    ⟨"Loyang Industrial",
     [(103.960, 1.358), (103.980, 1.356), (103.984, 1.366), (103.978, 1.372),
      (103.962, 1.368)]⟩,
    ⟨"Tanjong Kling Industrial",
     [(103.725, 1.275), (103.742, 1.273), (103.748, 1.283), (103.740, 1.290),
      (103.726, 1.287)]⟩,
    ⟨"Keppel / Tanjong Pagar Terminal",
     [(103.832, 1.260), (103.848, 1.258), (103.852, 1.268), (103.845, 1.274),
      (103.834, 1.270)]⟩ ]

def INDUSTRIAL_BUFFER_M : ℚ := 300

/-- The `(ring[i], ring[j])` pairs of the source loops
`for (let i = 0, j = ring.length - 1; i < ring.length; j = i++)`:
each vertex paired with its predecessor, wrapping around. -/
def ringEdges (ring : List (ℚ × ℚ)) : List ((ℚ × ℚ) × (ℚ × ℚ)) :=
  match ring with
  | [] => []
  | h :: t => (h :: t).zip ((h :: t).getLastD h :: (h :: t).dropLast)

def pointInPolygon (lat lng : ℚ) (ring : List (ℚ × ℚ)) : Bool :=
  (ringEdges ring).foldl
    (fun inside e =>
      let xi := e.1.1
      let yi := e.1.2
      let xj := e.2.1
      let yj := e.2.2
      if ((lat < yi) ≠ (lat < yj)) ∧ lng < (xj - xi) * (lat - yi) / (yj - yi) + xi
      then !inside else inside)
    false

/-- Source `distToPolygonEdge`; `none` models the `Infinity` initial value of
the running minimum (empty ring). -/
def distToPolygonEdge (sqrt : ℚ → ℚ) (lat lng : ℚ)
    (ring : List (ℚ × ℚ)) (cosLat : ℚ) : Option ℚ :=
  (ringEdges ring).foldl
    (fun minDist e =>
      let d := pointToSegmentDist sqrt lat lng e.1.2 e.1.1 e.2.2 e.2.1 cosLat
      match minDist with
      | none => some d
      | some m => if d < m then some d else some m)
    none

/-- The comparison `dist < r`, where `dist` may be the `Infinity` of an empty ring. -/
def distLt (d : Option ℚ) (r : ℚ) : Bool :=
  match d with
  | none => false
  | some x => decide (x < r)

structure GreenFlags where
  inPark : Bool
  nearPark : Bool
deriving DecidableEq

def greenZoneGo (sqrt : ℚ → ℚ) (lat lng cosLat : ℚ) : List Zone → GreenFlags
  | [] => ⟨false, false⟩
  | z :: rest =>
    if pointInPolygon lat lng z.ring then ⟨true, true⟩
    else if distLt (distToPolygonEdge sqrt lat lng z.ring cosLat) GREEN_BUFFER_M
    then ⟨false, true⟩
    else greenZoneGo sqrt lat lng cosLat rest

def greenZoneCheck (sqrt : ℚ → ℚ) (lat lng cosLat : ℚ) : GreenFlags :=
  greenZoneGo sqrt lat lng cosLat GREEN_ZONES

structure IndustrialEffect where
  addition : ℚ
  multiplier : ℚ
deriving DecidableEq

def industrialGo (sqrt : ℚ → ℚ) (lat lng cosLat : ℚ) : List Zone → IndustrialEffect
  | [] => ⟨0, 1⟩
  | z :: rest =>
    if pointInPolygon lat lng z.ring then ⟨1.2, 1.8⟩
    else
      match distToPolygonEdge sqrt lat lng z.ring cosLat with
      | some d =>
        if d < INDUSTRIAL_BUFFER_M then
          let factor := 1 - d / INDUSTRIAL_BUFFER_M
          ⟨0.8 * factor, 1 + 0.6 * factor⟩
        else industrialGo sqrt lat lng cosLat rest
      | none => industrialGo sqrt lat lng cosLat rest

def industrialModifier (sqrt : ℚ → ℚ) (lat lng cosLat : ℚ) : IndustrialEffect :=
  industrialGo sqrt lat lng cosLat INDUSTRIAL_ZONES

/-! ## Grid lookup -/
/-- The scan loop of `findNearestCell`; `closest`/`minDist` start as
`null`/`Infinity` (both `none`), and the loop breaks as soon as the
current cell is within `0.00001`. -/
def findNearestGo (lat lng : ℚ) :
    List GridCell → Option GridCell → Option ℚ → Option GridCell
  | [], closest, _ => closest
  | cell :: rest, closest, minDist =>
    let d := |cell.lat - lat| + |cell.lng - lng|
    let hit : Bool :=
      match minDist with
      | none => true
      | some m => decide (d < m)
    let closest' := if hit then some cell else closest
    let minDist' := if hit then some d else minDist
    if d < 0.00001 then closest'
    else findNearestGo lat lng rest closest' minDist'

def findNearestCell (lat lng : ℚ) (grid : Option StaticGrid) : Option GridCell :=
  match grid with
  | none => none
  | some g => findNearestGo lat lng g.cells none none

/-! ## Point scorer -/
structure ScoreBreakdown where
  staticBase : ℚ
  pm25Modifier : ℚ
  windModifier : ℚ
  timeModifier : ℚ
  rainModifier : ℚ
  trafficModifier : ℚ
deriving DecidableEq

structure ScoreResult where
  score : ℚ
  band : String
  label : String
  color : String
  trafficMod : ℚ
  isIndustrial : Bool
  isGreenZone : Bool
  isNearGreenZone : Bool
  breakdown : ScoreBreakdown
  recommendation : String
deriving DecidableEq

/-- Source `computeScore(lat, lng, conditions, grid, hour?, speedBands?)`.
The `hour ?? new Date().getHours()` default reads the wall clock and is
outside the embedding: `hour` is taken as a required argument (claims
under study always pass an explicit hour).  `cosLat` stands for the
source's `Math.cos((lat * PI) / 180)` and is also the value the nested
`trafficModifier` call computes for itself. -/
def computeScore (sqrt : ℚ → ℚ) (cosLat : ℚ) (lat lng : ℚ)
    (conditions : Option CurrentConditions) (grid : Option StaticGrid)
    (hour : ℚ) (speedBands : Option (List TrafficSpeedBand)) : ScoreResult :=
  let staticBase0 : ℚ :=
    match findNearestCell lat lng grid with
    | some cell => cell.base
    | none => 3.0
  let pm25Mod := match conditions with
    | some c => pm25Modifier c.pm25Value
    | none => 0
  let windMod := match conditions with
    | some c => windModifier c.windSpeed
    | none => 0
  let timeMod := timeModifier hour
  let rainMod := match conditions with
    | some c => rainModifier c.isRaining c.rainIntensity
    | none => 0
  let baseTrafMod := match speedBands with
    | some sb => trafficModifier sqrt cosLat lat lng sb
    | none => 0
  let indust := industrialModifier sqrt lat lng cosLat
  let trafficMod := min 4.5 (baseTrafMod * indust.multiplier + indust.addition)
  let green := greenZoneCheck sqrt lat lng cosLat
  let staticBase :=
    if green.inPark then min staticBase0 1.2
    else if green.nearPark then min staticBase0 2.0
    else staticBase0
  let raw := staticBase + pm25Mod + windMod + timeMod + rainMod + trafficMod
  let score := max 1 (min 10 (jsRound (raw * 10) / 10))
  let band := getBand score
  { score := score
    band := band.band
    label := band.label
    color := band.color
    trafficMod := jsRound (trafficMod * 10) / 10
    isIndustrial := decide (0 < indust.addition)
    isGreenZone := green.inPark
    isNearGreenZone := green.nearPark
    breakdown :=
      { staticBase := jsRound (staticBase * 10) / 10
        pm25Modifier := jsRound (pm25Mod * 10) / 10
        windModifier := jsRound (windMod * 10) / 10
        timeModifier := jsRound (timeMod * 10) / 10
        rainModifier := jsRound (rainMod * 10) / 10
        trafficModifier := jsRound (trafficMod * 10) / 10 }
    recommendation := "" }

/-! ## Route scoring and rating -/
structure InterpolatedPoint where
  lat : ℚ
  lng : ℚ
  distanceM : ℚ
deriving DecidableEq

def scoreRoutePoints (sqrt : ℚ → ℚ) (cosOf : ℚ → ℚ)
    (interpolated : List InterpolatedPoint)
    (conditions : Option CurrentConditions) (grid : Option StaticGrid)
    (hour : ℚ) (speedBands : List TrafficSpeedBand) : List ScoredPoint :=
  interpolated.map fun p =>
    let r := computeScore sqrt (cosOf p.lat) p.lat p.lng conditions grid hour (some speedBands)
    { lat := p.lat, lng := p.lng, distanceM := p.distanceM
      score := r.score, color := r.color, band := r.band
      trafficMod := some r.trafficMod
      industrialZone := r.isIndustrial
      greenZone := r.isGreenZone
      nearGreenZone := r.isNearGreenZone }

def sumQ (l : List ℚ) : ℚ := l.foldl (· + ·) 0

/-- JavaScript `Math.max(...l)` for the nonempty lists it is applied to. -/
def listMax : List ℚ → ℚ
  | [] => 0
  | h :: t => t.foldl max h

/-- First factor of the stable sort by ascending `pct`: the first
factor attaining the minimal percentage. -/
def worstFactor : List RatingFactor → RatingFactor
  | [] => ⟨"", 0, ""⟩
  | h :: t => t.foldl (fun w f => if f.pct < w.pct then f else w) h

def asciiLower (ch : Char) : Char :=
  if 'A' ≤ ch ∧ ch ≤ 'Z' then Char.ofNat (ch.toNat + 32) else ch

def lowercase (s : String) : String := s.map asciiLower

def rateRoute (sqrt : ℚ → ℚ) (scoredPoints : List ScoredPoint)
    (grid : Option StaticGrid) : RouteRating :=
  if scoredPoints.isEmpty then
    { overall := 50, trafficExposure := 50, airQuality := 50,
      greenCorridor := 50, consistency := 50, summary := "No data", factors := [] }
  else
    let scores := scoredPoints.map (·.score)
    let avgScore := sumQ scores / scores.length
    let basescores := scoredPoints.map fun p =>
      match findNearestCell p.lat p.lng grid with
      | some cell => cell.base
      | none => 3
    let trafficMods := scoredPoints.map fun p => p.trafficMod.getD 0
    let avgTrafficMod := sumQ trafficMods / trafficMods.length
    let maxTrafficMod := listMax trafficMods
    let trafficPct :=
      jsRound (max 0 (min 100 (100 - (avgTrafficMod * 0.6 + maxTrafficMod * 0.4) * 25)))
    let airPct := jsRound (max 0 (min 100 ((10 - avgScore) / 9 * 100)))
    let greenFromGrid := (basescores.filter fun b => decide (b ≤ 1.5)).length
    let parkFromGrid := (basescores.filter fun b => decide (b ≤ 2.5)).length
    let greenFromZones := (scoredPoints.filter (·.greenZone)).length
    let nearGreenFromZones := (scoredPoints.filter (·.nearGreenZone)).length
    let greenCount : ℕ := max greenFromGrid greenFromZones
    let parkCount : ℕ := max parkFromGrid nearGreenFromZones
    let greenPct :=
      jsRound (min 100
        ((greenCount : ℚ) / basescores.length * 100 * 0.7 +
         (parkCount : ℚ) / basescores.length * 100 * 0.3))
    let variance := sumQ (scores.map fun s => (s - avgScore) ^ 2) / scores.length
    let stdDev := sqrt variance
    let consistencyPct := jsRound (max 0 (min 100 ((1 - stdDev / 3) * 100)))
    let industrialCount := (scoredPoints.filter (·.industrialZone)).length
    let industrialPct := jsRound ((industrialCount : ℚ) / scoredPoints.length * 100)
    let overall :=
      jsRound (trafficPct * 0.4 + airPct * 0.3 + greenPct * 0.2 + consistencyPct * 0.1)
    let trafficDetail :=
      if 80 ≤ trafficPct then "Minimal road exhaust exposure"
      else if 60 ≤ trafficPct then "Some road-adjacent stretches"
      else if 40 ≤ trafficPct then "Significant traffic exposure"
      else "Heavy traffic along much of the route"
    let industrialNote :=
      if 0 < industrialPct then
        " (" ++ toString industrialPct.num ++ "% near industrial zones)"
      else ""
    let zonePct := jsRound ((greenFromZones : ℚ) / scoredPoints.length * 100)
    let greenBase :=
      if 80 ≤ greenPct then "Mostly through parks and green space"
      else if 60 ≤ greenPct then "Good mix of greenery"
      else if 40 ≤ greenPct then "Some green sections"
      else "Mostly urban, limited greenery"
    let greenDetail :=
      if 0 < zonePct then greenBase ++ " (" ++ toString zonePct.num ++ "% in known parks)"
      else greenBase
    let factors : List RatingFactor :=
      [ ⟨"Traffic Exposure", trafficPct, trafficDetail ++ industrialNote⟩,
        ⟨"Air Quality", airPct,
          if 80 ≤ airPct then "Clean air throughout"
          else if 60 ≤ airPct then "Generally good air"
          else if 40 ≤ airPct then "Moderate pollution levels"
          else "Poor air quality conditions"⟩,
        ⟨"Green Corridor", greenPct, greenDetail⟩,
        ⟨"Consistency", consistencyPct,
          if 80 ≤ consistencyPct then "Even conditions throughout"
          else if 60 ≤ consistencyPct then "Mostly consistent"
          else if 40 ≤ consistencyPct then "Some bad patches along the way"
          else "Quality varies a lot — expect bad stretches"⟩ ]
    let summary0 :=
      if 85 ≤ overall then "Excellent route — clean air, low traffic, great for hard efforts."
      else if 70 ≤ overall then "Good route for running with minor compromises."
      else if 55 ≤ overall then "Decent but has some traffic or pollution exposure."
      else if 40 ≤ overall then "Below average — consider alternatives if available."
      else "Poor conditions — heavy traffic and pollution exposure."
    let worst := worstFactor factors
    let summary :=
      if worst.pct < 60 then summary0 ++ " Main concern: " ++ lowercase worst.detail ++ "."
      else summary0
    { overall := overall, trafficExposure := trafficPct, airQuality := airPct,
      greenCorridor := greenPct, consistency := consistencyPct,
      summary := summary, factors := factors }

/-! ## Hypotheses on the `Math.sqrt` parameter

`SqrtLB sqrt` states the one property of the real square root the
distance lower-bound lemmas need: any quantity whose square is at most
the radicand bounds the square root from below.  `Real.sqrt` satisfies
it, and so does the rational over-approximation `fun x => max 1 x`
used by the concrete witnesses. -/
def SqrtLB (sqrt : ℚ → ℚ) : Prop :=
  ∀ x R : ℚ, 0 ≤ R → R * R ≤ x → R ≤ sqrt x

/-! ## Traffic model: reduction specification -/
/-- A band qualifies when its start coordinates are nonzero (the only
validity check the loop performs) and its distance is strictly inside
the radius. -/
def bandQual (sqrt : ℚ → ℚ) (cosLat lat lng : ℚ) (band : TrafficSpeedBand) : Bool :=
  !(decide (band.startLat = 0) || decide (band.startLng = 0)) &&
    decide (bandDist sqrt cosLat lat lng band < TRAFFIC_RADIUS)

/-- Specification-side reduction: the maximum exhaust over all
qualifying segments ("worst road wins"). -/
def maxExhaustSpec (sqrt : ℚ → ℚ) (cosLat lat lng : ℚ)
    (speedBands : List TrafficSpeedBand) : ℚ :=
  (((speedBands.filter (bandQual sqrt cosLat lat lng)).map
    (bandExhaust sqrt cosLat lat lng)).foldr max 0)

/-! ## Industrial classifier: first-match specification -/
/-- Specification form, following the spec's words: the first zone (in
iteration order) that contains the point or lies within the 300 m
buffer decides; containment gives the fixed constants, proximity the
linearly scaled ones, and no match is neutral. -/
def classifyIndustrialSpecGo (sqrt : ℚ → ℚ) (lat lng cosLat : ℚ)
    (zones : List Zone) : IndustrialEffect :=
  match zones.find? (fun z => pointInPolygon lat lng z.ring ||
      distLt (distToPolygonEdge sqrt lat lng z.ring cosLat) INDUSTRIAL_BUFFER_M) with
  | none => ⟨0, 1⟩
  | some z =>
    if pointInPolygon lat lng z.ring then ⟨1.2, 1.8⟩
    else
      match distToPolygonEdge sqrt lat lng z.ring cosLat with
      | some d =>
        let factor := 1 - d / INDUSTRIAL_BUFFER_M
        ⟨0.8 * factor, 1 + 0.6 * factor⟩
      | none => ⟨0, 1⟩

def classifyIndustrialSpec (sqrt : ℚ → ℚ) (lat lng cosLat : ℚ) : IndustrialEffect :=
  classifyIndustrialSpecGo sqrt lat lng cosLat INDUSTRIAL_ZONES

/-! ## Road-name inference: specification -/
/-- The spec's matching condition: the (upper-cased) name contains one
of the known expressway codes or the words EXPRESSWAY/HIGHWAY. -/
def specExpresswayMatch (name : List Char) : Bool :=
  (EXPRESSWAYS ++ ["EXPRESSWAY", "HIGHWAY"]).any
    fun e => jsIncludes (name.map asciiUpper) e.toList

/-! ## Grid lookup: scan specification -/
/-- L1 degree-distance from the query point to a cell. -/
def cellL1 (lat lng : ℚ) (cell : GridCell) : ℚ :=
  |cell.lat - lat| + |cell.lng - lng|

/-- The cells the loop actually examines: everything up to and
including the first cell within the `0.00001` epsilon. -/
def scanCells (lat lng : ℚ) : List GridCell → List GridCell
  | [] => []
  | cell :: rest =>
    if cellL1 lat lng cell < 0.00001 then [cell]
    else cell :: scanCells lat lng rest

/-! ## Concrete instances used by witnesses and counterexamples -/
/-- A rational stand-in for `Math.sqrt` satisfying `SqrtLB`
(it over-approximates the square root everywhere). -/
def sqrtUB : ℚ → ℚ := fun x => max 1 x

/-- Degenerate stand-in: all distances collapse to zero. -/
def sqrtZero : ℚ → ℚ := fun _ => 0

/-- Identity stand-in; exact on the inputs `0` and perfect squares the
concrete instances below are engineered to produce. -/
def sqrtId : ℚ → ℚ := fun x => x

/-- Segment with valid start at the query point but zero end
coordinates. -/
def segEndZero1 : TrafficSpeedBand :=
  { roadName := [], speedBand := 8, startLat := 1.3, startLng := 103.85,
    endLat := 0, endLng := 0, frc := some 2, congestion := some 1 }

def segEndZero2 : TrafficSpeedBand :=
  { roadName := [], speedBand := 8, startLat := 1.35, startLng := 103.9,
    endLat := 0, endLng := 0, frc := some 0, congestion := some 1 }

/-- Segment with a zero start latitude (skipped by the loop). -/
def segStartZero : TrafficSpeedBand :=
  { roadName := [], speedBand := 8, startLat := 0, startLng := 103.8,
    endLat := 1.3, endLng := 103.8, frc := some 2, congestion := some 1 }

/-- Degenerate segment whose reported distance from the query point
`(1 + 1/5566, 103)` under `sqrtId` is exactly `400`. -/
def segBoundary : TrafficSpeedBand :=
  { roadName := [], speedBand := 8, startLat := 1, startLng := 103,
    endLat := 1, endLng := 103, frc := some 0, congestion := some 1 }

def segExpressway : TrafficSpeedBand :=
  { roadName := [], speedBand := 8, startLat := 1.3, startLng := 103.8,
    endLat := 1.31, endLng := 103.81, frc := some 0, congestion := some 1 }

def segResidential : TrafficSpeedBand :=
  { roadName := [], speedBand := 8, startLat := 1.3, startLng := 103.8,
    endLat := 1.29, endLng := 103.79, frc := some 6, congestion := some 0.1 }

/-- Minor-road segment through the Jurong Industrial Estate point. -/
def segArterial4 : TrafficSpeedBand :=
  { roadName := [], speedBand := 8, startLat := 1.32, startLng := 103.71,
    endLat := 1.33, endLng := 103.72, frc := some 4, congestion := some 1 }

/-- Grid whose first cell is within the epsilon of the origin but whose
second cell is strictly closer. -/
def gridTwoCells : StaticGrid := ⟨[⟨0, 1/200000, 5⟩, ⟨0, 0, 7⟩]⟩

/-- Grid with a single far-away cell (no epsilon hit). -/
def gridFar : StaticGrid := ⟨[⟨5, 5, 2⟩]⟩

/-! ## Properties of rounding -/
theorem jsRound_mono {x y : ℚ} (h : x ≤ y) : jsRound x ≤ jsRound y := by
  unfold jsRound
  exact_mod_cast Int.floor_le_floor (by linarith)

theorem jsRound_nonneg {x : ℚ} (h : 0 ≤ x) : 0 ≤ jsRound x := by
  unfold jsRound
  have : (0 : ℤ) ≤ Int.floor (x + 1/2) := by
    rw [show (0 : ℤ) = Int.floor ((1 : ℚ)/2) from by norm_num [Int.floor_eq_iff]]
    exact Int.floor_le_floor (by linarith)
  exact_mod_cast this

theorem jsRound_le_int {x : ℚ} {k : ℤ} (h : x ≤ (k : ℚ)) : jsRound x ≤ (k : ℚ) := by
  unfold jsRound
  have : Int.floor (x + 1/2) ≤ k := by
    have h2 : Int.floor (x + 1/2) ≤ Int.floor ((k : ℚ) + 1/2) := Int.floor_le_floor (by linarith)
    rwa [Int.floor_int_add, show Int.floor ((1:ℚ)/2) = 0 from by norm_num [Int.floor_eq_iff],
      add_zero] at h2
  exact_mod_cast this

theorem round10_mono {x y : ℚ} (h : x ≤ y) : round10 x ≤ round10 y := by
  unfold round10
  have := jsRound_mono (show x * 10 ≤ y * 10 by linarith)
  linarith

theorem round10_nonneg {x : ℚ} (h : 0 ≤ x) : 0 ≤ round10 x := by
  unfold round10
  have := jsRound_nonneg (show (0:ℚ) ≤ x * 10 by linarith)
  linarith

theorem round10_le_four {x : ℚ} (h : x ≤ 4) : round10 x ≤ 4 := by
  unfold round10
  have := jsRound_le_int (show x * 10 ≤ ((40 : ℤ) : ℚ) by push_cast; linarith)
  push_cast at this
  linarith

/-- The final clamp `Math.max(1, Math.min(10, round(raw * 10) / 10))` is
monotone in `raw`. -/
theorem scoreClamp_mono {x y : ℚ} (h : x ≤ y) :
    max 1 (min 10 (jsRound (x * 10) / 10)) ≤ max 1 (min 10 (jsRound (y * 10) / 10)) := by
  have hm := jsRound_mono (show x * 10 ≤ y * 10 by linarith)
  have : jsRound (x * 10) / 10 ≤ jsRound (y * 10) / 10 := by linarith
  exact max_le_max le_rfl (min_le_min le_rfl this)

theorem sqrtLB_max_one : SqrtLB (fun x => max 1 x) := by
  intro x R hR h
  rcases le_or_lt R 1 with h1 | h1
  · exact le_trans h1 (le_max_left _ _)
  · have : R ≤ R * R := by nlinarith
    exact le_trans this (le_trans h (le_max_right _ _))

/-! ## Lower bounds on `pointToSegmentDist` -/
/-- Master lower bound: if the squared offset is at least `R * R`
for every clamp parameter `t ∈ [0, 1]`, the reported distance is at
least `R`. -/
theorem pointToSegmentDist_ge {sqrt : ℚ → ℚ} {px py ax ay bx by' c R : ℚ}
    (hs : SqrtLB sqrt) (hR : 0 ≤ R)
    (key : ∀ t : ℚ, 0 ≤ t → t ≤ 1 →
      R * R ≤
        ((px - ax) * DEG_TO_M * c - t * ((bx - ax) * DEG_TO_M * c)) *
          ((px - ax) * DEG_TO_M * c - t * ((bx - ax) * DEG_TO_M * c)) +
        ((py - ay) * DEG_TO_M - t * ((by' - ay) * DEG_TO_M)) *
          ((py - ay) * DEG_TO_M - t * ((by' - ay) * DEG_TO_M))) :
    R ≤ pointToSegmentDist sqrt px py ax ay bx by' c := by
  unfold pointToSegmentDist
  dsimp only
  split
  · apply hs _ _ hR
    have := key 0 le_rfl (by norm_num)
    calc R * R ≤ _ := this
    _ = (px - ax) * DEG_TO_M * c * ((px - ax) * DEG_TO_M * c) +
        (py - ay) * DEG_TO_M * ((py - ay) * DEG_TO_M) := by ring
  · apply hs _ _ hR
    apply key
    · exact le_max_left _ _
    · exact max_le (by norm_num) (min_le_left _ _)

/-- If both ring-vertex second coordinates (`ay`, `by'`) lie at least
`R / DEG_TO_M` degrees below `py`, the distance is at least `R`. -/
theorem pointToSegmentDist_ge_Y_le {sqrt : ℚ → ℚ} {px py ax ay bx by' c R : ℚ}
    (hs : SqrtLB sqrt) (hR : 0 ≤ R)
    (ha : R ≤ DEG_TO_M * (py - ay)) (hb : R ≤ DEG_TO_M * (py - by')) :
    R ≤ pointToSegmentDist sqrt px py ax ay bx by' c := by
  apply pointToSegmentDist_ge hs hR
  intro t ht0 ht1
  have hw : R ≤ (py - ay) * DEG_TO_M - t * ((by' - ay) * DEG_TO_M) := by
    nlinarith [mul_nonneg (by linarith : (0:ℚ) ≤ 1 - t)
        (by linarith : (0:ℚ) ≤ DEG_TO_M * (py - ay) - R),
      mul_nonneg ht0 (by linarith : (0:ℚ) ≤ DEG_TO_M * (py - by') - R)]
  nlinarith [mul_self_nonneg ((px - ax) * DEG_TO_M * c - t * ((bx - ax) * DEG_TO_M * c)),
    mul_self_le_mul_self hR hw]

/-- Symmetric version: both `ay`, `by'` at least `R / DEG_TO_M` degrees
above `py`. -/
theorem pointToSegmentDist_ge_Y_ge {sqrt : ℚ → ℚ} {px py ax ay bx by' c R : ℚ}
    (hs : SqrtLB sqrt) (hR : 0 ≤ R)
    (ha : R ≤ DEG_TO_M * (ay - py)) (hb : R ≤ DEG_TO_M * (by' - py)) :
    R ≤ pointToSegmentDist sqrt px py ax ay bx by' c := by
  apply pointToSegmentDist_ge hs hR
  intro t ht0 ht1
  have hw : R ≤ -((py - ay) * DEG_TO_M - t * ((by' - ay) * DEG_TO_M)) := by
    nlinarith [mul_nonneg (by linarith : (0:ℚ) ≤ 1 - t)
        (by linarith : (0:ℚ) ≤ DEG_TO_M * (ay - py) - R),
      mul_nonneg ht0 (by linarith : (0:ℚ) ≤ DEG_TO_M * (by' - py) - R)]
  nlinarith [mul_self_nonneg ((px - ax) * DEG_TO_M * c - t * ((bx - ax) * DEG_TO_M * c)),
    mul_self_le_mul_self hR hw]

/-- First-coordinate version, using the cosine factor: when both `ax`
and `bx` are at least `2R / DEG_TO_M` degrees above `px` and the cosine
parameter is at least `1/2`, the distance is at least `R`. -/
theorem pointToSegmentDist_ge_X_ge {sqrt : ℚ → ℚ} {px py ax ay bx by' c R : ℚ}
    (hs : SqrtLB sqrt) (hR : 0 ≤ R) (hc : 1/2 ≤ c)
    (ha : 2 * R ≤ DEG_TO_M * (ax - px)) (hb : 2 * R ≤ DEG_TO_M * (bx - px)) :
    R ≤ pointToSegmentDist sqrt px py ax ay bx by' c := by
  apply pointToSegmentDist_ge hs hR
  intro t ht0 ht1
  have hconv : 2 * R ≤ (1 - t) * (DEG_TO_M * (ax - px)) + t * (DEG_TO_M * (bx - px)) := by
    nlinarith [mul_nonneg (by linarith : (0:ℚ) ≤ 1 - t)
        (by linarith : (0:ℚ) ≤ DEG_TO_M * (ax - px) - 2 * R),
      mul_nonneg ht0 (by linarith : (0:ℚ) ≤ DEG_TO_M * (bx - px) - 2 * R)]
  have hw : R ≤ -((px - ax) * DEG_TO_M * c - t * ((bx - ax) * DEG_TO_M * c)) := by
    have hexp : -((px - ax) * DEG_TO_M * c - t * ((bx - ax) * DEG_TO_M * c)) =
        c * ((1 - t) * (DEG_TO_M * (ax - px)) + t * (DEG_TO_M * (bx - px))) := by ring
    rw [hexp]
    nlinarith [mul_le_mul_of_nonneg_left hconv (by linarith : (0:ℚ) ≤ c)]
  nlinarith [mul_self_nonneg ((py - ay) * DEG_TO_M - t * ((by' - ay) * DEG_TO_M)),
    mul_self_le_mul_self hR hw]

/-! ## Lifting distance bounds to rings and zones -/
theorem getLastD_mem_cons {α} (h : α) (t : List α) : (h :: t).getLastD h ∈ h :: t := by
  rw [List.getLastD_eq_getLast?]
  rcases e : (h :: t).getLast? with _ | a
  · simp at e
  · simp [List.mem_of_getLast?_eq_some e]

theorem ringEdges_mem {ring : List (ℚ × ℚ)} {e : (ℚ × ℚ) × (ℚ × ℚ)}
    (he : e ∈ ringEdges ring) : e.1 ∈ ring ∧ e.2 ∈ ring := by
  unfold ringEdges at he
  match ring, he with
  | h :: t, he =>
    obtain ⟨h1, h2⟩ := List.of_mem_zip (show (e.1, e.2) ∈ _ from he)
    refine ⟨h1, ?_⟩
    rcases List.mem_cons.1 h2 with heq | hm
    · exact heq ▸ getLastD_mem_cons h t
    · exact List.mem_of_mem_dropLast hm

/-- If every edge of the ring is at distance at least `R`, the
polygon-edge distance check `dist < R` is false. -/
theorem distLt_eq_false_of_edges {sqrt : ℚ → ℚ} {lat lng c R : ℚ} {ring : List (ℚ × ℚ)}
    (h : ∀ e ∈ ringEdges ring,
      R ≤ pointToSegmentDist sqrt lat lng e.1.2 e.1.1 e.2.2 e.2.1 c) :
    distLt (distToPolygonEdge sqrt lat lng ring c) R = false := by
  unfold distToPolygonEdge
  have main : ∀ (l : List ((ℚ × ℚ) × (ℚ × ℚ))) (acc : Option ℚ),
      (∀ e ∈ l, R ≤ pointToSegmentDist sqrt lat lng e.1.2 e.1.1 e.2.2 e.2.1 c) →
      (acc = none ∨ ∃ m, acc = some m ∧ R ≤ m) →
      distLt (l.foldl
        (fun minDist e =>
          let d := pointToSegmentDist sqrt lat lng e.1.2 e.1.1 e.2.2 e.2.1 c
          match minDist with
          | none => some d
          | some m => if d < m then some d else some m)
        acc) R = false := by
    intro l
    induction l with
    | nil =>
      intro acc _ hacc
      rcases hacc with rfl | ⟨m, rfl, hm⟩
      · rfl
      · simpa [distLt] using not_lt.2 hm
    | cons e rest ih =>
      intro acc hl hacc
      have he : R ≤ pointToSegmentDist sqrt lat lng e.1.2 e.1.1 e.2.2 e.2.1 c :=
        hl e (List.mem_cons_self _ _)
      rw [List.foldl_cons]
      apply ih _ (fun x hx => hl x (List.mem_cons_of_mem _ hx))
      rcases hacc with rfl | ⟨m, rfl, hm⟩
      · exact Or.inr ⟨_, rfl, he⟩
      · dsimp only
        split
        · exact Or.inr ⟨_, rfl, he⟩
        · exact Or.inr ⟨_, rfl, hm⟩
  exact main _ none h (Or.inl rfl)

/-- Ring-level bound, second-coordinate slots below the query `lng`:
covers both green rings (whose stored pairs are `(lat, lng)` and are
read with the two slots swapped) and westerly industrial rings. -/
theorem distLt_false_Y_le {sqrt : ℚ → ℚ} {lat lng c R : ℚ} {ring : List (ℚ × ℚ)}
    (hs : SqrtLB sqrt) (hR : 0 ≤ R)
    (hv : ∀ v ∈ ring, R ≤ DEG_TO_M * (lng - v.1)) :
    distLt (distToPolygonEdge sqrt lat lng ring c) R = false := by
  apply distLt_eq_false_of_edges
  intro e he
  obtain ⟨h1, h2⟩ := ringEdges_mem he
  exact pointToSegmentDist_ge_Y_le hs hR (hv _ h1) (hv _ h2)

theorem distLt_false_Y_ge {sqrt : ℚ → ℚ} {lat lng c R : ℚ} {ring : List (ℚ × ℚ)}
    (hs : SqrtLB sqrt) (hR : 0 ≤ R)
    (hv : ∀ v ∈ ring, R ≤ DEG_TO_M * (v.1 - lng)) :
    distLt (distToPolygonEdge sqrt lat lng ring c) R = false := by
  apply distLt_eq_false_of_edges
  intro e he
  obtain ⟨h1, h2⟩ := ringEdges_mem he
  exact pointToSegmentDist_ge_Y_ge hs hR (hv _ h1) (hv _ h2)

theorem distLt_false_X_ge {sqrt : ℚ → ℚ} {lat lng c R : ℚ} {ring : List (ℚ × ℚ)}
    (hs : SqrtLB sqrt) (hR : 0 ≤ R) (hc : 1/2 ≤ c)
    (hv : ∀ v ∈ ring, 2 * R ≤ DEG_TO_M * (v.2 - lat)) :
    distLt (distToPolygonEdge sqrt lat lng ring c) R = false := by
  apply distLt_eq_false_of_edges
  intro e he
  obtain ⟨h1, h2⟩ := ringEdges_mem he
  exact pointToSegmentDist_ge_X_ge hs hR hc (hv _ h1) (hv _ h2)

/-! ## Zone scans on all-neutral zone lists -/
theorem greenZoneGo_neutral {sqrt : ℚ → ℚ} {lat lng c : ℚ} {zones : List Zone}
    (h : ∀ z ∈ zones, pointInPolygon lat lng z.ring = false ∧
      distLt (distToPolygonEdge sqrt lat lng z.ring c) GREEN_BUFFER_M = false) :
    greenZoneGo sqrt lat lng c zones = ⟨false, false⟩ := by
  induction zones with
  | nil => rfl
  | cons z rest ih =>
    obtain ⟨hin, hnear⟩ := h z (List.mem_cons_self _ _)
    rw [greenZoneGo, hin, hnear]
    simp only [Bool.false_eq_true, if_false]
    exact ih fun x hx => h x (List.mem_cons_of_mem _ hx)

theorem industrialGo_neutral {sqrt : ℚ → ℚ} {lat lng c : ℚ} {zones : List Zone}
    (h : ∀ z ∈ zones, pointInPolygon lat lng z.ring = false ∧
      distLt (distToPolygonEdge sqrt lat lng z.ring c) INDUSTRIAL_BUFFER_M = false) :
    industrialGo sqrt lat lng c zones = ⟨0, 1⟩ := by
  induction zones with
  | nil => rfl
  | cons z rest ih =>
    obtain ⟨hin, hnear⟩ := h z (List.mem_cons_self _ _)
    rw [industrialGo, hin]
    simp only [Bool.false_eq_true, if_false]
    have ihrest := ih fun x hx => h x (List.mem_cons_of_mem _ hx)
    rcases hdist : distToPolygonEdge sqrt lat lng z.ring c with _ | d
    · exact ihrest
    · rw [hdist] at hnear
      simp only [distLt, decide_eq_false_iff_not, not_lt] at hnear
      dsimp only
      rw [if_neg (not_lt.2 hnear)]
      exact ihrest

/-! ## Zone facts at the scenario point `(1.2836, 103.8607)` -/
theorem greenZones_neutral_c1 {sqrt : ℚ → ℚ} {c : ℚ} (hs : SqrtLB sqrt) :
    ∀ z ∈ GREEN_ZONES, pointInPolygon 1.2836 103.8607 z.ring = false ∧
      distLt (distToPolygonEdge sqrt 1.2836 103.8607 z.ring c) GREEN_BUFFER_M = false := by
  intro z hz
  simp only [GREEN_ZONES, List.mem_cons, List.not_mem_nil, or_false] at hz
  rcases hz with rfl | rfl | rfl | rfl | rfl | rfl | rfl | rfl | rfl | rfl | rfl | rfl |
    rfl | rfl | rfl | rfl | rfl | rfl | rfl | rfl <;>
    exact ⟨by decide, distLt_false_Y_le hs (by decide) (by decide)⟩

theorem industrialZones_neutral_c1 {sqrt : ℚ → ℚ} {c : ℚ} (hs : SqrtLB sqrt) (hc : 1/2 ≤ c) :
    ∀ z ∈ INDUSTRIAL_ZONES, pointInPolygon 1.2836 103.8607 z.ring = false ∧
      distLt (distToPolygonEdge sqrt 1.2836 103.8607 z.ring c) INDUSTRIAL_BUFFER_M = false := by
  intro z hz
  simp only [INDUSTRIAL_ZONES, List.mem_cons, List.not_mem_nil, or_false] at hz
  rcases hz with rfl | rfl | rfl | rfl | rfl | rfl | rfl | rfl | rfl | rfl | rfl | rfl |
    rfl | rfl | rfl | rfl | rfl | rfl | rfl | rfl | rfl <;>
    first
    | exact ⟨by decide, distLt_false_Y_le hs (by decide) (by decide)⟩
    | exact ⟨by decide, distLt_false_Y_ge hs (by decide) (by decide)⟩
    | exact ⟨by decide, distLt_false_X_ge hs (by decide) hc (by decide)⟩

theorem greenZoneCheck_c1 {sqrt : ℚ → ℚ} {c : ℚ} (hs : SqrtLB sqrt) :
    greenZoneCheck sqrt 1.2836 103.8607 c = ⟨false, false⟩ :=
  greenZoneGo_neutral (greenZones_neutral_c1 hs)

theorem industrialModifier_c1 {sqrt : ℚ → ℚ} {c : ℚ} (hs : SqrtLB sqrt) (hc : 1/2 ≤ c) :
    industrialModifier sqrt 1.2836 103.8607 c = ⟨0, 1⟩ :=
  industrialGo_neutral (industrialZones_neutral_c1 hs hc)

theorem ite_lt_eq_max {a b : ℚ} : (if a < b then b else a) = max a b := by
  split
  · exact (max_eq_right (le_of_lt (by assumption))).symm
  · exact (max_eq_left (le_of_not_lt (by assumption))).symm

theorem foldr_max_nonneg (l : List ℚ) : 0 ≤ l.foldr max 0 := by
  induction l with
  | nil => exact le_refl 0
  | cons h t ih => exact le_trans ih (le_max_right h _)

theorem foldl_trafficStep_eq_max {sqrt : ℚ → ℚ} {cosLat lat lng : ℚ}
    (l : List TrafficSpeedBand) :
    ∀ a : ℚ, 0 ≤ a →
      l.foldl (trafficStep sqrt cosLat lat lng) a =
        max a (maxExhaustSpec sqrt cosLat lat lng l) := by
  induction l with
  | nil =>
    intro a ha
    simp [maxExhaustSpec, max_eq_left ha]
  | cons b t ih =>
    intro a ha
    rw [List.foldl_cons]
    rcases hq : bandQual sqrt cosLat lat lng b with _ | _
    · have hstep : trafficStep sqrt cosLat lat lng a b = a := by
        unfold trafficStep
        by_cases hinv : b.startLat = 0 ∨ b.startLng = 0
        · rw [if_pos hinv]
        · rw [if_neg hinv]
          have hfar : ¬ bandDist sqrt cosLat lat lng b < TRAFFIC_RADIUS := by
            simp only [bandQual, Bool.and_eq_false_iff, Bool.not_eq_false',
              Bool.or_eq_true, decide_eq_true_eq, decide_eq_false_iff_not] at hq
            rcases hq with hq | hq
            · exact absurd hq hinv
            · exact hq
          rw [if_pos (not_lt.1 hfar)]
      rw [hstep]
      have hfilter : (b :: t).filter (bandQual sqrt cosLat lat lng) =
          t.filter (bandQual sqrt cosLat lat lng) := by
        simp [List.filter_cons, hq]
      unfold maxExhaustSpec
      rw [hfilter]
      exact ih a ha
    · have hval : ¬(b.startLat = 0 ∨ b.startLng = 0) ∧
          bandDist sqrt cosLat lat lng b < TRAFFIC_RADIUS := by
        simpa [bandQual, not_or] using hq
      have hstep : trafficStep sqrt cosLat lat lng a b =
          max a (bandExhaust sqrt cosLat lat lng b) := by
        unfold trafficStep
        rw [if_neg hval.1, if_neg (not_le.2 hval.2), ite_lt_eq_max]
      rw [hstep]
      have hfilter : (b :: t).filter (bandQual sqrt cosLat lat lng) =
          b :: t.filter (bandQual sqrt cosLat lat lng) := by
        simp [List.filter_cons, hq]
      unfold maxExhaustSpec
      rw [hfilter, List.map_cons, List.foldr_cons]
      rw [ih _ (le_trans ha (le_max_left _ _))]
      rw [max_assoc]
      rfl

/-- The loop of `trafficModifier` computes exactly the scaled, capped,
rounded maximum exhaust over qualifying segments. -/
theorem trafficModifier_eq_spec (sqrt : ℚ → ℚ) (cosLat lat lng : ℚ)
    (speedBands : List TrafficSpeedBand) :
    trafficModifier sqrt cosLat lat lng speedBands =
      round10 (min 4.0 (maxExhaustSpec sqrt cosLat lat lng speedBands * 3.5)) := by
  unfold trafficModifier
  rcases speedBands with _ | ⟨b, t⟩
  · simp only [List.isEmpty_nil, if_true]
    norm_num [maxExhaustSpec, round10, jsRound, Int.floor_eq_iff]
  · simp only [List.isEmpty_cons, Bool.false_eq_true, if_false]
    rw [foldl_trafficStep_eq_max _ _ (le_refl 0)]
    rw [max_eq_right (show (0:ℚ) ≤ maxExhaustSpec sqrt cosLat lat lng (b :: t) from
      foldr_max_nonneg _)]
    rfl

/-- Dropping a non-qualifying segment (zero start coordinate, or
distance at least the radius) does not change the modifier. -/
theorem trafficModifier_drop {sqrt : ℚ → ℚ} {cosLat lat lng : ℚ}
    {s : TrafficSpeedBand} (pre post : List TrafficSpeedBand)
    (h : s.startLat = 0 ∨ s.startLng = 0 ∨
      TRAFFIC_RADIUS ≤ bandDist sqrt cosLat lat lng s) :
    trafficModifier sqrt cosLat lat lng (pre ++ s :: post) =
      trafficModifier sqrt cosLat lat lng (pre ++ post) := by
  have hq : bandQual sqrt cosLat lat lng s = false := by
    simp only [bandQual, Bool.and_eq_false_iff, Bool.not_eq_false', Bool.or_eq_true,
      decide_eq_true_eq, decide_eq_false_iff_not]
    rcases h with h | h | h
    · exact Or.inl (Or.inl h)
    · exact Or.inl (Or.inr h)
    · exact Or.inr (not_lt.2 h)
  rw [trafficModifier_eq_spec, trafficModifier_eq_spec]
  unfold maxExhaustSpec
  rw [List.filter_append, List.filter_append, List.filter_cons, hq]
  simp

/-- Bounds of the base traffic modifier: always within `[0, 4]`. -/
theorem trafficModifier_bounds (sqrt : ℚ → ℚ) (cosLat lat lng : ℚ)
    (speedBands : List TrafficSpeedBand) :
    0 ≤ trafficModifier sqrt cosLat lat lng speedBands ∧
      trafficModifier sqrt cosLat lat lng speedBands ≤ 4 := by
  rw [trafficModifier_eq_spec]
  constructor
  · apply round10_nonneg
    have := foldr_max_nonneg ((speedBands.filter (bandQual sqrt cosLat lat lng)).map
      (bandExhaust sqrt cosLat lat lng))
    have h2 : (0:ℚ) ≤ maxExhaustSpec sqrt cosLat lat lng speedBands * 3.5 := by
      unfold maxExhaustSpec; nlinarith
    exact le_min (by norm_num) h2
  · exact round10_le_four (min_le_left _ _)

/-- The modifier of an all-skipped list is exactly `0`. -/
theorem trafficModifier_eq_zero {sqrt : ℚ → ℚ} {cosLat lat lng : ℚ}
    {speedBands : List TrafficSpeedBand}
    (h : ∀ s ∈ speedBands, s.startLat = 0 ∨ s.startLng = 0 ∨
      TRAFFIC_RADIUS ≤ bandDist sqrt cosLat lat lng s) :
    trafficModifier sqrt cosLat lat lng speedBands = 0 := by
  rw [trafficModifier_eq_spec]
  have hfilter : speedBands.filter (bandQual sqrt cosLat lat lng) = [] := by
    rw [List.filter_eq_nil_iff]
    intro s hsmem
    have hq : bandQual sqrt cosLat lat lng s = false := by
      simp only [bandQual, Bool.and_eq_false_iff, Bool.not_eq_false', Bool.or_eq_true,
        decide_eq_true_eq, decide_eq_false_iff_not]
      rcases h s hsmem with h1 | h1 | h1
      · exact Or.inl (Or.inl h1)
      · exact Or.inl (Or.inr h1)
      · exact Or.inr (not_lt.2 h1)
    simp [hq]
  unfold maxExhaustSpec
  rw [hfilter]
  norm_num [round10, jsRound, Int.floor_eq_iff]

theorem industrialGo_eq_spec (sqrt : ℚ → ℚ) (lat lng cosLat : ℚ)
    (zones : List Zone) :
    industrialGo sqrt lat lng cosLat zones =
      classifyIndustrialSpecGo sqrt lat lng cosLat zones := by
  induction zones with
  | nil => rfl
  | cons z rest ih =>
    unfold industrialGo classifyIndustrialSpecGo
    rw [List.find?_cons]
    rcases hin : pointInPolygon lat lng z.ring with _ | _
    · simp only [Bool.false_eq_true, if_false, Bool.false_or]
      rcases hdist : distToPolygonEdge sqrt lat lng z.ring cosLat with _ | d
      · simp only [distLt]
        exact ih
      · rcases hlt : decide (d < INDUSTRIAL_BUFFER_M) with _ | _
        · simp only [distLt, hlt]
          rw [if_neg (by simpa using hlt)]
          exact ih
        · have hlt' : d < INDUSTRIAL_BUFFER_M := by simpa using hlt
          simp [distLt, hlt, hin, hlt']
          rw [hdist]
    · simp [hin]

theorem inferFrc_eq_spec (name : List Char) :
    inferFrcFromRoadName name =
      if name = [] then 3 else if specExpresswayMatch name then 0 else 2 := by
  unfold inferFrcFromRoadName specExpresswayMatch
  by_cases hname : name = []
  · rw [if_pos hname, if_pos hname]
  · rw [if_neg hname, if_neg hname]
    rw [List.any_append]
    rcases h1 : EXPRESSWAYS.any fun e => jsIncludes (name.map asciiUpper) e.toList with _ | _
    · simp only [Bool.false_or, h1, Bool.false_eq_true, if_false]
      rcases h2 : jsIncludes (name.map asciiUpper) "EXPRESSWAY".toList with _ | _ <;>
        rcases h3 : jsIncludes (name.map asciiUpper) "HIGHWAY".toList with _ | _ <;>
        simp_all [List.any_cons]
    · simp only [h1, Bool.true_or]
      norm_num

theorem scanCells_eq_self {lat lng : ℚ} {cells : List GridCell}
    (h : ∀ x ∈ cells, ¬(cellL1 lat lng x < 0.00001)) :
    scanCells lat lng cells = cells := by
  induction cells with
  | nil => rfl
  | cons cell rest ih =>
    rw [scanCells, if_neg (h cell (List.mem_cons_self _ _))]
    rw [ih fun x hx => h x (List.mem_cons_of_mem _ hx)]

theorem findNearestGo_spec (lat lng : ℚ) (cells : List GridCell) :
    ∀ cl : GridCell, ∃ res,
      findNearestGo lat lng cells (some cl) (some (cellL1 lat lng cl)) = some res ∧
      res ∈ cl :: scanCells lat lng cells ∧
      ∀ x ∈ cl :: scanCells lat lng cells, cellL1 lat lng res ≤ cellL1 lat lng x := by
  induction cells with
  | nil =>
    intro cl
    exact ⟨cl, rfl, List.mem_cons_self _ _, by
      intro x hx
      rcases List.mem_cons.1 hx with rfl | hx
      · exact le_refl _
      · cases hx⟩
  | cons cell rest ih =>
    intro cl
    set d := cellL1 lat lng cell with hd
    have hgo : findNearestGo lat lng (cell :: rest) (some cl) (some (cellL1 lat lng cl)) =
        (if d < 0.00001
          then (if d < cellL1 lat lng cl then some cell else some cl)
          else findNearestGo lat lng rest
            (if d < cellL1 lat lng cl then some cell else some cl)
            (if d < cellL1 lat lng cl then some d else some (cellL1 lat lng cl))) := by
      rw [findNearestGo]
      by_cases hlt : d < cellL1 lat lng cl <;>
        simp [cellL1, hlt, hd]
    by_cases heps : d < 0.00001
    · -- early exit at this cell
      refine ⟨if d < cellL1 lat lng cl then cell else cl, ?_, ?_, ?_⟩
      · rw [hgo, if_pos heps]
        split <;> rfl
      · rw [scanCells, if_pos (hd ▸ heps)]
        split
        · exact List.mem_cons_of_mem _ (List.mem_cons_self _ _)
        · exact List.mem_cons_self _ _
      · rw [scanCells, if_pos (hd ▸ heps)]
        intro x hx
        rcases List.mem_cons.1 hx with rfl | hx
        · split
          · exact le_of_lt (by assumption)
          · exact le_refl _
        · rcases List.mem_cons.1 hx with rfl | hx
          · split
            · exact le_refl _
            · exact le_of_not_lt (by assumption)
          · cases hx
    · -- scan continues
      by_cases hlt : d < cellL1 lat lng cl
      · obtain ⟨res, hres, hmem, hmin⟩ := ih cell
        refine ⟨res, ?_, ?_, ?_⟩
        · rw [hgo, if_neg heps, if_pos hlt, if_pos hlt, hd]
          exact hres
        · rw [scanCells, if_neg (hd ▸ heps)]
          rcases List.mem_cons.1 hmem with rfl | hmem
          · exact List.mem_cons_of_mem _ (List.mem_cons_self _ _)
          · exact List.mem_cons_of_mem _ (List.mem_cons_of_mem _ hmem)
        · rw [scanCells, if_neg (hd ▸ heps)]
          intro x hx
          rcases List.mem_cons.1 hx with rfl | hx
          · exact le_trans (hmin cell (List.mem_cons_self _ _)) (le_of_lt hlt)
          · rcases List.mem_cons.1 hx with rfl | hx
            · exact hmin x (List.mem_cons_self _ _)
            · exact hmin x (List.mem_cons_of_mem _ hx)
      · obtain ⟨res, hres, hmem, hmin⟩ := ih cl
        refine ⟨res, ?_, ?_, ?_⟩
        · rw [hgo, if_neg heps, if_neg hlt, if_neg hlt]
          exact hres
        · rw [scanCells, if_neg (hd ▸ heps)]
          rcases List.mem_cons.1 hmem with rfl | hmem
          · exact List.mem_cons_self _ _
          · exact List.mem_cons_of_mem _ (List.mem_cons_of_mem _ hmem)
        · rw [scanCells, if_neg (hd ▸ heps)]
          intro x hx
          rcases List.mem_cons.1 hx with rfl | hx
          · exact hmin x (List.mem_cons_self _ _)
          · rcases List.mem_cons.1 hx with rfl | hx
            · exact le_trans (hmin cl (List.mem_cons_self _ _)) (le_of_not_lt hlt)
            · exact hmin x (List.mem_cons_of_mem _ hx)

/-- Top-level scan behaviour on a nonempty cell list. -/
theorem findNearestGo_cons_spec (lat lng : ℚ) (c0 : GridCell) (rest : List GridCell) :
    ∃ res, findNearestGo lat lng (c0 :: rest) none none = some res ∧
      res ∈ scanCells lat lng (c0 :: rest) ∧
      ∀ x ∈ scanCells lat lng (c0 :: rest), cellL1 lat lng res ≤ cellL1 lat lng x := by
  have hgo : findNearestGo lat lng (c0 :: rest) none none =
      (if cellL1 lat lng c0 < 0.00001 then some c0
        else findNearestGo lat lng rest (some c0) (some (cellL1 lat lng c0))) := by
    rw [findNearestGo]
    simp [cellL1]
  by_cases heps : cellL1 lat lng c0 < 0.00001
  · refine ⟨c0, by rw [hgo, if_pos heps], ?_, ?_⟩
    · rw [scanCells, if_pos heps]
      exact List.mem_cons_self _ _
    · rw [scanCells, if_pos heps]
      intro x hx
      rcases List.mem_cons.1 hx with rfl | hx
      · exact le_refl _
      · cases hx
  · obtain ⟨res, hres, hmem, hmin⟩ := findNearestGo_spec lat lng rest c0
    refine ⟨res, ?_, ?_, ?_⟩
    · rw [hgo, if_neg heps]
      exact hres
    · rw [scanCells, if_neg heps]
      exact hmem
    · rw [scanCells, if_neg heps]
      exact hmin

/-! ## Percentage bound helpers -/
theorem jsRound_le_hundred {x : ℚ} (h : x ≤ 100) : jsRound x ≤ 100 := by
  have := jsRound_le_int (show x ≤ ((100 : ℤ) : ℚ) by push_cast; linarith)
  push_cast at this
  linarith

theorem pct_bound_clamp (x : ℚ) :
    0 ≤ jsRound (max 0 (min 100 x)) ∧ jsRound (max 0 (min 100 x)) ≤ 100 :=
  ⟨jsRound_nonneg (le_max_left _ _),
   jsRound_le_hundred (max_le (by norm_num) (min_le_left _ _))⟩

theorem pct_bound_min100 {x : ℚ} (h : 0 ≤ x) :
    0 ≤ jsRound (min 100 x) ∧ jsRound (min 100 x) ≤ 100 :=
  ⟨jsRound_nonneg (le_min (by norm_num) h), jsRound_le_hundred (min_le_left _ _)⟩

theorem overall_bound {t a g k : ℚ}
    (ht : 0 ≤ t ∧ t ≤ 100) (ha : 0 ≤ a ∧ a ≤ 100)
    (hg : 0 ≤ g ∧ g ≤ 100) (hk : 0 ≤ k ∧ k ≤ 100) :
    0 ≤ jsRound (t * 0.4 + a * 0.3 + g * 0.2 + k * 0.1) ∧
      jsRound (t * 0.4 + a * 0.3 + g * 0.2 + k * 0.1) ≤ 100 :=
  ⟨jsRound_nonneg (by nlinarith [ht.1, ha.1, hg.1, hk.1]),
   jsRound_le_hundred (by nlinarith [ht.2, ha.2, hg.2, hk.2])⟩

/-! ## PM2.5 monotonicity -/
theorem pm25Modifier_mono {v1 v2 : ℚ} (h : v1 ≤ v2) :
    pm25Modifier v1 ≤ pm25Modifier v2 := by
  unfold pm25Modifier
  split_ifs <;> linarith

/-- Structure of `rateRoute` on a nonempty list: every percentage field
is a clamped, rounded quantity, the green-corridor argument is
nonnegative, and `overall` is the weighted blend of the four. -/
theorem rateRoute_cons_shape (sqrt : ℚ → ℚ) (p : ScoredPoint) (rest : List ScoredPoint)
    (grid : Option StaticGrid) :
    ∃ (E A G K : ℚ) (s1 s2 s3 s4 s5 : String),
      0 ≤ G ∧
      rateRoute sqrt (p :: rest) grid =
        { overall := jsRound (jsRound (max 0 (min 100 E)) * 0.4 +
            jsRound (max 0 (min 100 A)) * 0.3 +
            jsRound (min 100 G) * 0.2 + jsRound (max 0 (min 100 K)) * 0.1),
          trafficExposure := jsRound (max 0 (min 100 E)),
          airQuality := jsRound (max 0 (min 100 A)),
          greenCorridor := jsRound (min 100 G),
          consistency := jsRound (max 0 (min 100 K)),
          summary := s1,
          factors :=
            [ ⟨"Traffic Exposure", jsRound (max 0 (min 100 E)), s2⟩,
              ⟨"Air Quality", jsRound (max 0 (min 100 A)), s3⟩,
              ⟨"Green Corridor", jsRound (min 100 G), s4⟩,
              ⟨"Consistency", jsRound (max 0 (min 100 K)), s5⟩ ] } := by
  refine ⟨_, _, _, _, _, _, _, _, _, ?pos, rfl⟩
  positivity

theorem rateRoute_nil (sqrt : ℚ → ℚ) (grid : Option StaticGrid) :
    rateRoute sqrt [] grid =
      { overall := 50, trafficExposure := 50, airQuality := 50,
        greenCorridor := 50, consistency := 50, summary := "No data", factors := [] } := rfl

theorem sqrtUB_lb : SqrtLB sqrtUB := sqrtLB_max_one

/-! ## Claims -/
/-- C1 counterexample: at the scenario point `(1.2836, 103.8607)` with
`conditions = null`, `grid = null`, `segments = []` and hour 12, the
code reports `isGreenZone = false`, not `true` as the claim states
(the green-zone rings are stored `[lat, lng]` while the polygon
routines read `[lng, lat]`, so green containment never fires — and the
point's longitude 103.8607 lies outside the polygon's 103.861…103.870
range anyway). -/
theorem computeScore_gardens_scenario_cex :
    (computeScore sqrtZero 1 1.2836 103.8607 none none 12 (some [])).isGreenZone = false := by
  decide

/-- C1 (amended): at the scenario point with `conditions = null`,
`grid = null`, `segments = []` and an explicit hour `h`, `computeScore`
reports `isGreenZone = false`, an effective `staticBase` of `3.0`
(the no-grid default, not clamped), and a final score equal to
`clamp(round(3.0 + timeModifier h, 1 decimal), 1, 10)` — for every
admissible square root and every cosine value at least `1/2`. -/
theorem computeScore_gardens_scenario {sqrt : ℚ → ℚ} {c : ℚ}
    (hs : SqrtLB sqrt) (hc : 1/2 ≤ c) (h : ℚ) :
    (computeScore sqrt c 1.2836 103.8607 none none h (some [])).isGreenZone = false ∧
    (computeScore sqrt c 1.2836 103.8607 none none h (some [])).breakdown.staticBase = 3 ∧
    (computeScore sqrt c 1.2836 103.8607 none none h (some [])).score =
      max 1 (min 10 (jsRound ((3 + timeModifier h) * 10) / 10)) := by
  have hind := industrialModifier_c1 hs hc
  have hgreen := greenZoneCheck_c1 (c := c) hs
  simp only [computeScore, hind, hgreen, findNearestCell, trafficModifier,
    List.isEmpty_nil, if_true]
  norm_num [jsRound]

theorem computeScore_gardens_scenario_witness :
    (computeScore sqrtUB 1 1.2836 103.8607 none none 12 (some [])).isGreenZone = false ∧
    (computeScore sqrtUB 1 1.2836 103.8607 none none 12 (some [])).breakdown.staticBase = 3 ∧
    (computeScore sqrtUB 1 1.2836 103.8607 none none 12 (some [])).score = 3.3 :=
  have h := computeScore_gardens_scenario sqrtUB_lb (by norm_num) 12
  ⟨h.1, h.2.1, h.2.2.trans (by decide)⟩

/-- C2 counterexample: a segment with zero end coordinates is not
excluded — with it present the modifier is `5/2` instead of the `0`
an excluded (hence empty) list yields; only start coordinates are
checked. -/
theorem trafficModifier_end_zero_cex :
    (segEndZero1.endLat = 0 ∧ segEndZero1.endLng = 0) ∧
    trafficModifier sqrtId 1 1.3 103.85 [segEndZero1] = 5/2 ∧
    trafficModifier sqrtId 1 1.3 103.85 [] = 0 := by
  decide

/-- C2 (amended): the traffic exhaust model excludes exactly the
segments whose start latitude or start longitude is missing/zero
(end coordinates are not validated); removing such a segment anywhere
in the list leaves the modifier unchanged, and the modifier is a total
function of any segment list. -/
theorem trafficModifier_skips_zero_starts (sqrt : ℚ → ℚ) (cosLat lat lng : ℚ)
    (pre post : List TrafficSpeedBand) (s : TrafficSpeedBand)
    (h : s.startLat = 0 ∨ s.startLng = 0) :
    trafficModifier sqrt cosLat lat lng (pre ++ s :: post) =
      trafficModifier sqrt cosLat lat lng (pre ++ post) := by
  rcases h with h | h
  · exact trafficModifier_drop pre post (Or.inl h)
  · exact trafficModifier_drop pre post (Or.inr (Or.inl h))

theorem trafficModifier_skips_zero_starts_witness :
    trafficModifier sqrtId 1 1.3 103.8 ([segEndZero1] ++ segStartZero :: []) =
      trafficModifier sqrtId 1 1.3 103.8 ([segEndZero1] ++ []) :=
  trafficModifier_skips_zero_starts sqrtId 1 1.3 103.8 [segEndZero1] [] segStartZero
    (Or.inl (by decide))

/-- C3 counterexample: a list in which every segment is invalid in the
claim's sense (zero end coordinates) still yields the nonzero modifier
`7/2`, because the code never checks end coordinates. -/
theorem trafficModifier_all_invalid_nonzero_cex :
    (∀ s ∈ [segEndZero2], s.endLat = 0 ∧ s.endLng = 0) ∧
    trafficModifier sqrtId 1 1.35 103.9 [segEndZero2] = 7/2 ∧
    (7/2 : ℚ) ≠ 0 := by
  decide

/-- C3 (amended): the base traffic modifier always lies in `[0, 4]`;
it is exactly `0` when the list is empty or every segment has a zero
start coordinate or lies at distance ≥ 400 m; and a segment whose
distance is exactly 400 m contributes nothing (strict `dist < 400`). -/
theorem trafficModifier_bounds_zero_boundary :
    (∀ (sqrt : ℚ → ℚ) (cosLat lat lng : ℚ) (l : List TrafficSpeedBand),
      0 ≤ trafficModifier sqrt cosLat lat lng l ∧
        trafficModifier sqrt cosLat lat lng l ≤ 4) ∧
    (∀ (sqrt : ℚ → ℚ) (cosLat lat lng : ℚ) (l : List TrafficSpeedBand),
      (∀ s ∈ l, s.startLat = 0 ∨ s.startLng = 0 ∨
        TRAFFIC_RADIUS ≤ bandDist sqrt cosLat lat lng s) →
      trafficModifier sqrt cosLat lat lng l = 0) ∧
    (∀ (sqrt : ℚ → ℚ) (cosLat lat lng : ℚ) (s : TrafficSpeedBand)
      (rest : List TrafficSpeedBand),
      bandDist sqrt cosLat lat lng s = TRAFFIC_RADIUS →
      trafficModifier sqrt cosLat lat lng (s :: rest) =
        trafficModifier sqrt cosLat lat lng rest) :=
  ⟨fun sqrt cosLat lat lng l => trafficModifier_bounds sqrt cosLat lat lng l,
   fun _ _ _ _ _ h => trafficModifier_eq_zero h,
   fun _ _ _ _ _ rest h =>
     trafficModifier_drop [] rest (Or.inr (Or.inr (le_of_eq h.symm)))⟩

theorem trafficModifier_bounds_zero_boundary_witness :
    (0 ≤ trafficModifier sqrtId 1 1.3 103.85 [segEndZero1] ∧
      trafficModifier sqrtId 1 1.3 103.85 [segEndZero1] ≤ 4) ∧
    trafficModifier sqrtId 1 1.3 103.8 [segStartZero] = 0 ∧
    trafficModifier sqrtId 1 (1 + 1/5566) 103 (segBoundary :: []) =
      trafficModifier sqrtId 1 (1 + 1/5566) 103 [] :=
  ⟨trafficModifier_bounds_zero_boundary.1 sqrtId 1 1.3 103.85 [segEndZero1],
   trafficModifier_bounds_zero_boundary.2.1 sqrtId 1 1.3 103.8 [segStartZero] (by decide),
   trafficModifier_bounds_zero_boundary.2.2 sqrtId 1 (1 + 1/5566) 103 segBoundary []
     (by decide)⟩

/-- Helper for C4: under the claim's literal configuration —
expressway (`frc = 0`, free flow) versus residential (`frc = 6`,
jammed) at the same distance under 400 m — the modifier equals the
expressway's scaled exhaust. -/
theorem trafficModifier_expressway_wins (sqrt : ℚ → ℚ) (cosLat lat lng : ℚ)
    (s1 s2 : TrafficSpeedBand)
    (hv1 : ¬(s1.startLat = 0 ∨ s1.startLng = 0)) (hv2 : ¬(s2.startLat = 0 ∨ s2.startLng = 0))
    (hfrc1 : s1.frc = some 0) (hcong1 : s1.congestion = some 1)
    (hfrc2 : s2.frc = some 6) (hcong2 : s2.congestion = some 0.1)
    (hdeq : bandDist sqrt cosLat lat lng s1 = bandDist sqrt cosLat lat lng s2)
    (hdlt : bandDist sqrt cosLat lat lng s1 < 400) :
    trafficModifier sqrt cosLat lat lng [s1, s2] =
      round10 (min 4.0 (bandExhaust sqrt cosLat lat lng s1 * 3.5)) := by
  rw [trafficModifier_eq_spec]
  have hq1 : bandQual sqrt cosLat lat lng s1 = true := by
    simp only [bandQual, Bool.and_eq_true, Bool.not_eq_true', Bool.or_eq_false_iff,
      decide_eq_false_iff_not, decide_eq_true_eq]
    exact ⟨⟨fun h => hv1 (Or.inl h), fun h => hv1 (Or.inr h)⟩, hdlt⟩
  have hq2 : bandQual sqrt cosLat lat lng s2 = true := by
    simp only [bandQual, Bool.and_eq_true, Bool.not_eq_true', Bool.or_eq_false_iff,
      decide_eq_false_iff_not, decide_eq_true_eq]
    exact ⟨⟨fun h => hv2 (Or.inl h), fun h => hv2 (Or.inr h)⟩, hdeq ▸ hdlt⟩
  have hspec : maxExhaustSpec sqrt cosLat lat lng [s1, s2] =
      max (bandExhaust sqrt cosLat lat lng s1)
        (max (bandExhaust sqrt cosLat lat lng s2) 0) := by
    unfold maxExhaustSpec
    simp [List.filter_cons, hq1, hq2]
  rw [hspec]
  have he1 : bandExhaust sqrt cosLat lat lng s1 =
      1 * (1 - bandDist sqrt cosLat lat lng s1 / TRAFFIC_RADIUS) := by
    unfold bandExhaust bandFrc bandCongestion
    rw [hfrc1, hcong1]
    norm_num [roadVolumeBaseline, congestionEmissionMultiplier]
  have he2 : bandExhaust sqrt cosLat lat lng s2 =
      0.15 * (1 - bandDist sqrt cosLat lat lng s2 / TRAFFIC_RADIUS) := by
    unfold bandExhaust bandFrc bandCongestion
    rw [hfrc2, hcong2]
    norm_num [roadVolumeBaseline, congestionEmissionMultiplier]
  have hdf : 0 ≤ 1 - bandDist sqrt cosLat lat lng s1 / TRAFFIC_RADIUS := by
    rw [show TRAFFIC_RADIUS = (400:ℚ) from rfl] at *
    have : bandDist sqrt cosLat lat lng s1 / 400 < 1 := by linarith [hdlt]
    linarith
  rw [he1, he2, ← hdeq]
  have h2 : (0:ℚ) ≤ 0.15 * (1 - bandDist sqrt cosLat lat lng s1 / TRAFFIC_RADIUS) := by
    linarith
  rw [max_eq_left h2]
  rw [max_eq_left (show
    0.15 * (1 - bandDist sqrt cosLat lat lng s1 / TRAFFIC_RADIUS) ≤
      1 * (1 - bandDist sqrt cosLat lat lng s1 / TRAFFIC_RADIUS) by linarith)]

/-- C4: the traffic exhaust model reduces per-segment exhaust by the
maximum over qualifying segments (never a sum) — the loop equals the
scaled, capped, rounded maximum — and in the claim's literal two-
segment configuration the expressway's scaled exhaust is the answer. -/
theorem trafficModifier_max_reduction :
    (∀ (sqrt : ℚ → ℚ) (cosLat lat lng : ℚ) (speedBands : List TrafficSpeedBand),
      trafficModifier sqrt cosLat lat lng speedBands =
        round10 (min 4.0 (maxExhaustSpec sqrt cosLat lat lng speedBands * 3.5))) ∧
    (∀ (sqrt : ℚ → ℚ) (cosLat lat lng : ℚ) (s1 s2 : TrafficSpeedBand),
      ¬(s1.startLat = 0 ∨ s1.startLng = 0) → ¬(s2.startLat = 0 ∨ s2.startLng = 0) →
      s1.frc = some 0 → s1.congestion = some 1 →
      s2.frc = some 6 → s2.congestion = some 0.1 →
      bandDist sqrt cosLat lat lng s1 = bandDist sqrt cosLat lat lng s2 →
      bandDist sqrt cosLat lat lng s1 < 400 →
      trafficModifier sqrt cosLat lat lng [s1, s2] =
        round10 (min 4.0 (bandExhaust sqrt cosLat lat lng s1 * 3.5))) :=
  ⟨trafficModifier_eq_spec,
   fun sqrt cosLat lat lng s1 s2 hv1 hv2 hfrc1 hcong1 hfrc2 hcong2 hdeq hdlt =>
     trafficModifier_expressway_wins sqrt cosLat lat lng s1 s2 hv1 hv2
       hfrc1 hcong1 hfrc2 hcong2 hdeq hdlt⟩

theorem trafficModifier_max_reduction_witness :
    trafficModifier sqrtId 1 1.3 103.8 [segExpressway, segResidential] =
      round10 (min 4.0 (maxExhaustSpec sqrtId 1 1.3 103.8 [segExpressway, segResidential] * 3.5)) ∧
    trafficModifier sqrtId 1 1.3 103.8 [segExpressway, segResidential] =
      round10 (min 4.0 (bandExhaust sqrtId 1 1.3 103.8 segExpressway * 3.5)) :=
  ⟨trafficModifier_max_reduction.1 sqrtId 1 1.3 103.8 [segExpressway, segResidential],
   trafficModifier_max_reduction.2 sqrtId 1 1.3 103.8 segExpressway segResidential
     (by decide) (by decide) (by decide) (by decide) (by decide) (by decide)
     (by decide) (by decide)⟩

/-- C5 counterexample: the empty (missing) road name is assigned the
inferred class `3`, not the claimed default `2`. -/
theorem inferFrc_empty_name_cex :
    inferFrcFromRoadName [] = 3 ∧ (3 : ℚ) ≠ 2 := by
  decide

/-- C5 (amended): for a segment without `frc`, a nonempty road name
containing (case-insensitively) a known expressway code or the words
EXPRESSWAY/HIGHWAY infers class `0`, any other nonempty name infers
`2`, and an empty or missing name infers `3`. -/
theorem inferFrc_classification (name : List Char) :
    inferFrcFromRoadName name =
      if name = [] then 3 else if specExpresswayMatch name then 0 else 2 :=
  inferFrc_eq_spec name

/-- C6 counterexample: inside the Jurong Industrial Estate with one
`frc = 4` free-flow segment through the query point, the *reported*
traffic modifier is `2.8` (rounded to one decimal) while
`min(4.5, base × multiplier + addition) = 2.82` — the claim's equation
fails for the reported field. -/
theorem computeScore_trafficMod_rounding_cex :
    (computeScore sqrtId 1 1.32 103.71 none none 12 (some [segArterial4])).trafficMod ≠
      min 4.5 (trafficModifier sqrtId 1 1.32 103.71 [segArterial4] *
        (industrialModifier sqrtId 1.32 103.71 1).multiplier +
        (industrialModifier sqrtId 1.32 103.71 1).addition) := by
  decide

/-- C6 (amended): the industrial classifier applies exactly the first
matching zone in iteration order with the claimed constants and buffer
scaling (`industrialModifier` equals its first-match specification),
and `computeScore`'s *reported* traffic modifier equals
`min(4.5, baseTrafficMod × multiplier + addition)` rounded to one
decimal. -/
theorem industrialModifier_first_match_and_reported :
    (∀ (sqrt : ℚ → ℚ) (lat lng cosLat : ℚ),
      industrialModifier sqrt lat lng cosLat = classifyIndustrialSpec sqrt lat lng cosLat) ∧
    (∀ (sqrt : ℚ → ℚ) (cosLat lat lng : ℚ) (conditions : Option CurrentConditions)
      (grid : Option StaticGrid) (hour : ℚ) (speedBands : Option (List TrafficSpeedBand)),
      (computeScore sqrt cosLat lat lng conditions grid hour speedBands).trafficMod =
        jsRound (min 4.5 ((match speedBands with
            | some sb => trafficModifier sqrt cosLat lat lng sb
            | none => 0) * (industrialModifier sqrt lat lng cosLat).multiplier +
            (industrialModifier sqrt lat lng cosLat).addition) * 10) / 10) :=
  ⟨fun sqrt lat lng cosLat => industrialGo_eq_spec sqrt lat lng cosLat INDUSTRIAL_ZONES,
   fun _ _ _ _ _ _ _ _ => rfl⟩

/-- C7 counterexample: with a first cell within the `0.00001` epsilon
and a second cell strictly closer, the early exit returns the first
cell, which is *not* L1-minimal over all cells. -/
theorem findNearestCell_early_exit_cex :
    findNearestCell 0 0 (some gridTwoCells) = some ⟨0, 1/200000, 5⟩ ∧
    (⟨0, 0, 7⟩ : GridCell) ∈ gridTwoCells.cells ∧
    cellL1 0 0 ⟨0, 0, 7⟩ < cellL1 0 0 ⟨0, 1/200000, 5⟩ := by
  decide

/-- C7 (amended): `findNearestCell` is `null` iff the grid is absent or
its cell list is empty; a returned cell belongs to, and is L1-minimal
over, the prefix of cells scanned up to (and including) the first cell
within the `0.00001` epsilon; when no cell is within the epsilon that
prefix is the whole list, so the result is minimal over all cells. -/
theorem findNearestCell_scan_minimal :
    (∀ lat lng : ℚ, findNearestCell lat lng none = none) ∧
    (∀ (lat lng : ℚ) (g : StaticGrid),
      findNearestCell lat lng (some g) = none ↔ g.cells = []) ∧
    (∀ (lat lng : ℚ) (g : StaticGrid) (cl : GridCell),
      findNearestCell lat lng (some g) = some cl →
        cl ∈ scanCells lat lng g.cells ∧
        ∀ x ∈ scanCells lat lng g.cells, cellL1 lat lng cl ≤ cellL1 lat lng x) ∧
    (∀ (lat lng : ℚ) (g : StaticGrid),
      (∀ x ∈ g.cells, ¬(cellL1 lat lng x < 0.00001)) →
      scanCells lat lng g.cells = g.cells) := by
  refine ⟨fun _ _ => rfl, ?_, ?_, ?_⟩
  · intro lat lng g
    constructor
    · intro h
      rcases hc : g.cells with _ | ⟨c0, rest⟩
      · rfl
      · obtain ⟨res, hres, _, _⟩ := findNearestGo_cons_spec lat lng c0 rest
        rw [findNearestCell, hc, hres] at h
        cases h
    · intro h
      rw [findNearestCell, h]
      rfl
  · intro lat lng g cl h
    rcases hc : g.cells with _ | ⟨c0, rest⟩
    · rw [findNearestCell, hc] at h
      cases h
    · obtain ⟨res, hres, hmem, hmin⟩ := findNearestGo_cons_spec lat lng c0 rest
      rw [findNearestCell, hc] at h
      rw [hres] at h
      injection h with h
      subst h
      exact ⟨hmem, hmin⟩
  · intro lat lng g h
    exact scanCells_eq_self h

theorem findNearestCell_scan_minimal_witness :
    ((findNearestCell 0 0 (some gridFar) = none ↔ gridFar.cells = []) ∧
      ((⟨5, 5, 2⟩ : GridCell) ∈ scanCells 0 0 gridFar.cells ∧
        ∀ x ∈ scanCells 0 0 gridFar.cells, cellL1 0 0 ⟨5, 5, 2⟩ ≤ cellL1 0 0 x)) ∧
    scanCells 0 0 gridFar.cells = gridFar.cells :=
  ⟨⟨findNearestCell_scan_minimal.2.1 0 0 gridFar,
    findNearestCell_scan_minimal.2.2.1 0 0 gridFar ⟨5, 5, 2⟩ (by decide)⟩,
   findNearestCell_scan_minimal.2.2.2 0 0 gridFar (by decide)⟩

/-- C8: for all inputs, `computeScore` yields a score in `[1, 10]`,
and `rateRoute` yields an overall rating in `[0, 100]` with every
factor percentage (trafficExposure, airQuality, greenCorridor,
consistency — both as fields and inside `factors`) in `[0, 100]`. -/
theorem computeScore_rateRoute_bounds :
    (∀ (sqrt : ℚ → ℚ) (cosLat lat lng : ℚ) (conditions : Option CurrentConditions)
      (grid : Option StaticGrid) (hour : ℚ) (speedBands : Option (List TrafficSpeedBand)),
      1 ≤ (computeScore sqrt cosLat lat lng conditions grid hour speedBands).score ∧
      (computeScore sqrt cosLat lat lng conditions grid hour speedBands).score ≤ 10) ∧
    (∀ (sqrt : ℚ → ℚ) (scoredPoints : List ScoredPoint) (grid : Option StaticGrid),
      (0 ≤ (rateRoute sqrt scoredPoints grid).overall ∧
        (rateRoute sqrt scoredPoints grid).overall ≤ 100) ∧
      (0 ≤ (rateRoute sqrt scoredPoints grid).trafficExposure ∧
        (rateRoute sqrt scoredPoints grid).trafficExposure ≤ 100) ∧
      (0 ≤ (rateRoute sqrt scoredPoints grid).airQuality ∧
        (rateRoute sqrt scoredPoints grid).airQuality ≤ 100) ∧
      (0 ≤ (rateRoute sqrt scoredPoints grid).greenCorridor ∧
        (rateRoute sqrt scoredPoints grid).greenCorridor ≤ 100) ∧
      (0 ≤ (rateRoute sqrt scoredPoints grid).consistency ∧
        (rateRoute sqrt scoredPoints grid).consistency ≤ 100) ∧
      ((rateRoute sqrt scoredPoints grid).factors.all
        fun f => decide (0 ≤ f.pct) && decide (f.pct ≤ 100)) = true) := by
  constructor
  · intro sqrt cosLat lat lng conditions grid hour speedBands
    simp only [computeScore]
    exact ⟨le_max_left _ _, max_le (by norm_num) (min_le_left _ _)⟩
  · intro sqrt scoredPoints grid
    rcases scoredPoints with _ | ⟨p, rest⟩
    · rw [rateRoute_nil]
      norm_num
    · obtain ⟨E, A, G, K, s1, s2, s3, s4, s5, hG, hEq⟩ := rateRoute_cons_shape sqrt p rest grid
      rw [hEq]
      refine ⟨overall_bound (pct_bound_clamp _) (pct_bound_clamp _)
          (pct_bound_min100 hG) (pct_bound_clamp _),
        pct_bound_clamp _, pct_bound_clamp _, pct_bound_min100 hG, pct_bound_clamp _, ?_⟩
      simp only [List.all_cons, List.all_nil, Bool.and_true, Bool.and_eq_true,
        decide_eq_true_eq]
      exact ⟨⟨(pct_bound_clamp _).1, (pct_bound_clamp _).2⟩,
        ⟨(pct_bound_clamp _).1, (pct_bound_clamp _).2⟩,
        ⟨(pct_bound_min100 hG).1, (pct_bound_min100 hG).2⟩,
        ⟨(pct_bound_clamp _).1, (pct_bound_clamp _).2⟩⟩

/-- C9: for a fixed point, grid, hour, segment list and otherwise
identical conditions, increasing `pm25.value` never decreases the
score. -/
theorem computeScore_pm25_monotone (sqrt : ℚ → ℚ) (cosLat lat lng : ℚ)
    (grid : Option StaticGrid) (hour : ℚ) (speedBands : Option (List TrafficSpeedBand))
    (windSpeed : ℚ) (isRaining : Bool) (rainIntensity : String)
    {v1 v2 : ℚ} (h : v1 ≤ v2) :
    (computeScore sqrt cosLat lat lng (some ⟨v1, windSpeed, isRaining, rainIntensity⟩)
      grid hour speedBands).score ≤
    (computeScore sqrt cosLat lat lng (some ⟨v2, windSpeed, isRaining, rainIntensity⟩)
      grid hour speedBands).score := by
  simp only [computeScore]
  apply scoreClamp_mono
  have := pm25Modifier_mono h
  linarith

theorem computeScore_pm25_monotone_witness :
    (computeScore sqrtZero 1 1.3 103.8 (some ⟨0, 5, false, ""⟩) none 12 none).score ≤
    (computeScore sqrtZero 1 1.3 103.8 (some ⟨80, 5, false, ""⟩) none 12 none).score :=
  computeScore_pm25_monotone sqrtZero 1 1.3 103.8 none 12 none 5 false ""
    (by norm_num)

/-- C10: `rateRoute` on an empty scored-point list returns exactly the
fixed neutral rating: all five figures `50`, summary `"No data"`, and
an empty factors list. -/
theorem rateRoute_empty_neutral (sqrt : ℚ → ℚ) (grid : Option StaticGrid) :
    rateRoute sqrt [] grid =
      { overall := 50, trafficExposure := 50, airQuality := 50,
        greenCorridor := 50, consistency := 50, summary := "No data", factors := [] } :=
  rateRoute_nil sqrt grid
